import Mathlib

/-!
Shallow embedding of the prettyZap logging package (src/prettyZap.go) and
verification of its specification claims.

Pure configuration logic (transferCfg, getLoggerLevel, outputTo, the facade
formatting) is translated directly from the Go source.  Process-environment
inputs (os.Args, the executable directory) are abstracted into an explicit
`Env` record.  The small pieces of external-library behaviour the claims
depend on (zapcore level-gating on emission, the zap AtomicLevel HTTP
handler) are modelled from the spec, as marked on each definition.
-/

namespace prettyZap

/-- Constants from the Go source (const block, lines 15-24). -/
def DefaultPort : String := "9090"

def DefaultLevel : String := "info"

def DefaultURL : String := "/change/level"

def DefaultMaxLogSizeMb : Int := 256

def DefaultMaxBackup : Int := 10

def DefaultMaxAgeDay : Int := 7

def DefaultSvcName : String := "app"

def IsCompress : Bool := false

/-- Output selector constants (iota block, lines 26-30). Go `int`. -/
def LogOutputStdout : Int := 0

def LogOutputFile : Int := 1

def LogOutputStdoutAndFile : Int := 2

/-- The zap severity levels (zapcore.Level values used by levelMap). -/
inductive Level where
  | debug
  | info
  | warn
  | error
  | dpanic
  | panic
  | fatal
deriving DecidableEq, Repr

/-- Numeric value of a zapcore.Level (DebugLevel = -1 through FatalLevel = 5). -/
def Level.toInt : Level → Int
  | .debug => -1
  | .info => 0
  | .warn => 1
  | .error => 2
  | .dpanic => 3
  | .panic => 4
  | .fatal => 5

/-- The PreSetConfig struct (lines 32-43). Go `int` fields become `Int`. -/
structure PreSetConfig where
  LogFilePath : String
  HttpPort : String
  LogLevel : String
  RestURL : String
  MaxLogSizeMb : Int
  MaxBackup : Int
  MaxAgeDay : Int
  SvcName : String
  IsCompress : Bool
  LogOutputTo : Int
deriving DecidableEq, Repr

/-- levelMap (lines 48-56) as a lookup: level name → zapcore.Level. -/
def levelMapLookup (s : String) : Option Level :=
  if s = "debug" then some .debug
  else if s = "info" then some .info
  else if s = "warn" then some .warn
  else if s = "error" then some .error
  else if s = "dpanic" then some .dpanic
  else if s = "panic" then some .panic
  else if s = "fatal" then some .fatal
  else none

/-- getLoggerLevel (lines 87-92): map lookup with fallback to InfoLevel. -/
def getLoggerLevel (lvl : String) : Level :=
  match levelMapLookup lvl with
  | some level => level
  | none => .info

/-- Process environment abstracted: os.Args[0] and the absolute directory
computed by filepath.Abs(filepath.Dir(os.Args[0])). -/
structure Env where
  argv0 : String
  exeDir : String

/-- getCurrentDirectory (lines 185-191): the executable's directory. -/
def getCurrentDirectory (env : Env) : String := env.exeDir

/-- getAppname (lines 198-206): last "/"-separated segment of os.Args[0];
strings.Split never returns an empty slice, so the fallback is dead code. -/
def getAppname (env : Env) : String :=
  let splits := env.argv0.splitOn "/"
  match splits.getLast? with
  | some name => name
  | none => DefaultSvcName

/-- getFilePath (lines 193-196): `<executable dir>/<app name>.log`. -/
def getFilePath (env : Env) : String :=
  getCurrentDirectory env ++ "/" ++ getAppname env ++ ".log"

/-- DefaultCfg (lines 58-69). -/
def DefaultCfg (env : Env) : PreSetConfig :=
  { LogFilePath := getFilePath env
    HttpPort := DefaultPort
    LogLevel := DefaultLevel
    RestURL := DefaultURL
    MaxLogSizeMb := DefaultMaxLogSizeMb
    MaxBackup := DefaultMaxBackup
    MaxAgeDay := DefaultMaxAgeDay
    SvcName := getAppname env
    IsCompress := IsCompress
    LogOutputTo := LogOutputStdoutAndFile }

/-- One conditional field assignment of transferCfg:
`if runCfg.F != preConfig.F { runCfg.F = preConfig.F }` leaves the run field
equal to the pre field in both branches. -/
def transferField {α : Type} [DecidableEq α] (run pre : α) : α :=
  if run ≠ pre then pre else run

/-- transferCfg body (lines 113-142) for two non-nil pointers: each field of
runCfg is conditionally assigned from preConfig; fields are independent, so
the ten sequential statements are the pointwise update below. -/
def transferCfgAux (preConfig runCfg : PreSetConfig) : PreSetConfig :=
  { IsCompress := transferField runCfg.IsCompress preConfig.IsCompress
    MaxAgeDay := transferField runCfg.MaxAgeDay preConfig.MaxAgeDay
    SvcName := transferField runCfg.SvcName preConfig.SvcName
    MaxBackup := transferField runCfg.MaxBackup preConfig.MaxBackup
    LogLevel := transferField runCfg.LogLevel preConfig.LogLevel
    RestURL := transferField runCfg.RestURL preConfig.RestURL
    HttpPort := transferField runCfg.HttpPort preConfig.HttpPort
    MaxLogSizeMb := transferField runCfg.MaxLogSizeMb preConfig.MaxLogSizeMb
    LogFilePath := transferField runCfg.LogFilePath preConfig.LogFilePath
    LogOutputTo := transferField runCfg.LogOutputTo preConfig.LogOutputTo }

/-- transferCfg (lines 111-144): pointers modelled as Option; the body runs
only when both pointers are non-nil, and the result is the pointee of runCfg
after the call. -/
def transferCfg (preConfig runCfg : Option PreSetConfig) : Option PreSetConfig :=
  match preConfig, runCfg with
  | some pre, some run => some (transferCfgAux pre run)
  | none, some run => some run
  | _, none => none

/-- Write destinations: stdout, or the lumberjack rotating-file sink with the
parameters set in outputTo (lines 156-162). -/
inductive Sink where
  | stdout
  | file (filename : String) (maxSize maxBackups maxAge : Int) (compress : Bool)
deriving DecidableEq, Repr

/-- outputTo (lines 154-174): the ordered sink list selected by
cfg.LogOutputTo; the Go switch's default arm covers every other value. -/
def outputTo (cfg : PreSetConfig) : List Sink :=
  let hook := Sink.file cfg.LogFilePath cfg.MaxLogSizeMb cfg.MaxBackup
    cfg.MaxAgeDay cfg.IsCompress
  if cfg.LogOutputTo = LogOutputStdout then [Sink.stdout]
  else if cfg.LogOutputTo = LogOutputFile then [hook]
  else [Sink.stdout, hook]

/-- The encoder choices picked in encoderConfig, as enumerations of the
zapcore encoder constructors the source selects among. -/
inductive TimeEnc where
  | iso8601
  | epoch
  | rfc3339
deriving DecidableEq, Repr

inductive LevelEnc where
  | lowercase
  | capital
deriving DecidableEq, Repr

inductive CallerEnc where
  | short
  | full
deriving DecidableEq, Repr

inductive DurationEnc where
  | seconds
  | nanos
deriving DecidableEq, Repr

inductive NameEnc where
  | full
deriving DecidableEq, Repr

/-- zapcore.EncoderConfig, restricted to the fields the source sets
(lines 71-85). -/
structure EncoderConfig where
  TimeKey : String
  LevelKey : String
  NameKey : String
  CallerKey : String
  MessageKey : String
  StacktraceKey : String
  LineEnding : String
  EncodeLevel : LevelEnc
  EncodeTime : TimeEnc
  EncodeDuration : DurationEnc
  EncodeCaller : CallerEnc
  EncodeName : NameEnc
deriving DecidableEq, Repr

/-- zapcore.DefaultLineEnding. -/
def DefaultLineEnding : String := "\n"

/-- encoderConfig (lines 71-85). -/
def encoderConfig : EncoderConfig :=
  { TimeKey := "time"
    LevelKey := "level"
    NameKey := "zapLogger"
    CallerKey := "caller"
    MessageKey := "msg"
    StacktraceKey := "stacktrace"
    LineEnding := DefaultLineEnding
    EncodeLevel := .lowercase
    EncodeTime := .iso8601
    EncodeDuration := .seconds
    EncodeCaller := .short
    EncodeName := .full }

/-- A zapcore.Core as constructed by newCore: a JSON encoder configuration,
the multi-write-syncer sink list, and a fixed LevelEnabler. -/
structure Core where
  enc : EncoderConfig
  sinks : List Sink
  level : Level
deriving DecidableEq, Repr

/-- newCore (lines 176-183): sinks from outputTo(cfg), level from
getLoggerLevel(DefaultCfg.LogLevel) — note the level is read from the global
DefaultCfg, and is a plain zapcore.Level, not the atomicLevel cell. -/
def newCore (cfg defaultCfg : PreSetConfig) : Core :=
  { enc := encoderConfig
    sinks := outputTo cfg
    level := getLoggerLevel defaultCfg.LogLevel }

/-- Modelled from the spec: zapcore.Level.Enabled, the Log Core's
enabled-level check (external zap library): a record at level `r` passes a
threshold `l` iff r ≥ l in the fixed numeric severity order. -/
def levelEnabled (l r : Level) : Bool :=
  decide (l.toInt ≤ r.toInt)

/-- Modelled from the spec: one emission through a zapcore.Core (external zap
library): read the threshold; below threshold, no I/O; otherwise write the
encoded record to every sink of the sink set, in order. -/
def coreWrite (c : Core) (r : Level) (encoded : String) : List (Sink × String) :=
  if levelEnabled c.level r then c.sinks.map (fun s => (s, encoded)) else []

/-- The zap.Logger as configured by NewLogger: its core plus the option
payloads (AddCaller, AddCallerSkip(1), Development, the permanent
serviceName field). -/
structure Logger where
  core : Core
  addCaller : Bool
  callerSkip : Int
  development : Bool
  permanentFields : List (String × String)
deriving DecidableEq, Repr

/-- NewLogger (lines 146-152). -/
def NewLogger (cfg defaultCfg : PreSetConfig) : Logger :=
  { core := newCore cfg defaultCfg
    addCaller := true
    callerSkip := 1
    development := true
    permanentFields := [("serviceName", cfg.SvcName)] }

/-- Lowercase name of a level, as the lowercase level encoder renders it. -/
def levelName : Level → String
  | .debug => "debug"
  | .info => "info"
  | .warn => "warn"
  | .error => "error"
  | .dpanic => "dpanic"
  | .panic => "panic"
  | .fatal => "fatal"

/-- Mutable process state relevant to the claims: the atomicLevel cell
(line 46, mutated only by the HTTP handler) and the Log Core singleton. -/
structure SysState where
  atomicLevel : Level
  core : Core
deriving DecidableEq, Repr

inductive HttpMethod where
  | get
  | put
deriving DecidableEq, Repr

structure HttpResponse where
  status : Int
  body : String
deriving DecidableEq, Repr

/-- Modelled from the spec: the control endpoint handler
(zap.AtomicLevel.ServeHTTP, external zap library, installed at line 96).
A query returns the current threshold; a mutation validates the supplied
name against the fixed level set; on success it atomically replaces the
atomicLevel cell and confirms; on an unrecognized name it responds with a
client error and leaves the threshold unchanged. -/
def serveHTTP (s : SysState) (m : HttpMethod) (reqLevel : String) :
    HttpResponse × SysState :=
  match m with
  | .get => (⟨200, levelName s.atomicLevel⟩, s)
  | .put =>
    match levelMapLookup reqLevel with
    | some l => (⟨200, levelName l⟩, { s with atomicLevel := l })
    | none => (⟨400, "unrecognized level"⟩, s)

/-- InitPrettyZap (lines 94-109): merge preCfg over the global DefaultCfg,
install the handler, build the logger from the merged DefaultCfg.  The
atomicLevel cell keeps the zap.NewAtomicLevel initial value (InfoLevel);
InitPrettyZap never writes it. -/
def InitPrettyZap (preCfg : Option PreSetConfig) (env : Env) : SysState :=
  let merged := (transferCfg preCfg (some (DefaultCfg env))).getD (DefaultCfg env)
  { atomicLevel := .info
    core := (NewLogger merged merged).core }

/-- A Go value passed to a facade function: either a string, or any other
value carried with its fmt.Sprint rendering. -/
inductive GoVal where
  | str (s : String)
  | other (rendered : String)
deriving DecidableEq, Repr

/-- fmt.Sprint of a single value; Sprint of a string is the string itself. -/
def sprint : GoVal → String
  | .str s => s
  | .other r => r

/-- strings.Repeat(s, n): n concatenated copies of s. -/
def stringsRepeat (s : String) : Nat → String
  | 0 => ""
  | n + 1 => stringsRepeat s n ++ s

/-- The sugared-logger call a facade function forwards to: which per-severity
formatting method, the format template handed to it, and the argument list. -/
inductive LogMethod where
  | debugf
  | infof
  | warnf
  | errorf
  | panicf
deriving DecidableEq, Repr

structure LogCall where
  method : LogMethod
  templet : String
  args : List GoVal
deriving DecidableEq, Repr

/-- The shared body of the five facade functions (lines 208-251): a string
first argument is the template; otherwise the template is fmt.Sprint of the
first argument followed by len(args) copies of " %v". -/
def facadeCall (m : LogMethod) (format : GoVal) (args : List GoVal) : LogCall :=
  match format with
  | .str templet => ⟨m, templet, args⟩
  | .other _ => ⟨m, sprint format ++ stringsRepeat " %v" args.length, args⟩

/-- Debug (lines 208-215). -/
def Debug (format : GoVal) (args : List GoVal) : LogCall :=
  facadeCall .debugf format args

/-- Info (lines 217-224). -/
def Info (format : GoVal) (args : List GoVal) : LogCall :=
  facadeCall .infof format args

/-- Warn (lines 226-233). -/
def Warn (format : GoVal) (args : List GoVal) : LogCall :=
  facadeCall .warnf format args

/-- Error (lines 235-242). -/
def Error (format : GoVal) (args : List GoVal) : LogCall :=
  facadeCall .errorf format args

/-- Panic (lines 244-251). -/
def Panic (format : GoVal) (args : List GoVal) : LogCall :=
  facadeCall .panicf format args

/-- A concrete environment used for closed evaluations. -/
def envExample : Env := { argv0 := "/usr/local/bin/app", exeDir := "/usr/local/bin" }

/-- The all-zero-valued PreSetConfig (every field at its Go zero value). -/
def emptyCfg : PreSetConfig :=
  { LogFilePath := ""
    HttpPort := ""
    LogLevel := ""
    RestURL := ""
    MaxLogSizeMb := 0
    MaxBackup := 0
    MaxAgeDay := 0
    SvcName := ""
    IsCompress := false
    LogOutputTo := 0 }

/-- The conditional assignment of transferCfg always leaves the run field
equal to the pre field. -/
theorem transferField_eq {α : Type} [DecidableEq α] (run pre : α) :
    transferField run pre = pre := by
  unfold transferField
  by_cases h : run = pre <;> simp [h]

/-- Every arm of outputTo appends at least one sink. -/
theorem outputTo_ne_nil (cfg : PreSetConfig) : outputTo cfg ≠ [] := by
  unfold outputTo
  split_ifs <;> simp

/-- C2 (counterexample): merging the all-zero configuration over the defaults
does not yield the defaults — MaxLogSizeMb becomes 0 instead of keeping 256. -/
theorem C2_empty_merge_counterexample :
    transferCfgAux emptyCfg (DefaultCfg envExample) ≠ DefaultCfg envExample
    ∧ (transferCfgAux emptyCfg (DefaultCfg envExample)).MaxLogSizeMb = 0
    ∧ (DefaultCfg envExample).MaxLogSizeMb = 256 :=
  ⟨by decide, rfl, rfl⟩

/-- C2 (amended): with both pointers non-nil, transferCfg copies every field
of preConfig into runCfg regardless of zero-ness, so the effective
configuration is exactly preConfig; a fully-specified configuration yields
itself, and the all-zero configuration yields the all-zero configuration. -/
theorem C2_transfer_overwrites_all_fields (preConfig runCfg : PreSetConfig) :
    transferCfgAux preConfig runCfg = preConfig := by
  simp [transferCfgAux, transferField_eq]

/-- C10: transferCfg is total on nil pointers — a nil preConfig (or nil
runCfg) performs no update, and InitPrettyZap with a nil configuration
builds the Log Core from the pure defaults. -/
theorem C10_transferCfg_nil_safe (p : Option PreSetConfig) (r : PreSetConfig)
    (env : Env) :
    transferCfg none (some r) = some r
    ∧ transferCfg p none = none
    ∧ InitPrettyZap none env
        = { atomicLevel := .info, core := newCore (DefaultCfg env) (DefaultCfg env) } := by
  refine ⟨rfl, ?_, rfl⟩
  cases p <;> rfl

/-- C5: getLoggerLevel maps each of the seven recognized level names to its
level and every other string (including the empty string) to info. -/
theorem C5_getLoggerLevel_total :
    getLoggerLevel "debug" = .debug
    ∧ getLoggerLevel "info" = .info
    ∧ getLoggerLevel "warn" = .warn
    ∧ getLoggerLevel "error" = .error
    ∧ getLoggerLevel "dpanic" = .dpanic
    ∧ getLoggerLevel "panic" = .panic
    ∧ getLoggerLevel "fatal" = .fatal
    ∧ ∀ lvl : String,
        lvl ∉ (["debug", "info", "warn", "error", "dpanic", "panic", "fatal"] : List String)
        → getLoggerLevel lvl = .info := by
  refine ⟨rfl, rfl, rfl, rfl, rfl, rfl, rfl, ?_⟩
  intro lvl h
  simp only [List.mem_cons, List.not_mem_nil, or_false, not_or] at h
  obtain ⟨h1, h2, h3, h4, h5, h6, h7⟩ := h
  simp [getLoggerLevel, levelMapLookup, h1, h2, h3, h4, h5, h6, h7]

/-- C5 witness: the empty string and an unrecognized name resolve to info. -/
theorem C5_getLoggerLevel_witness :
    getLoggerLevel "" = .info ∧ getLoggerLevel "verbose" = .info :=
  ⟨C5_getLoggerLevel_total.2.2.2.2.2.2.2 "" (by decide),
   C5_getLoggerLevel_total.2.2.2.2.2.2.2 "verbose" (by decide)⟩

/-- C6: outputTo returns exactly the ordered sink list selected by the
output-destination selector, the file sink configured from the effective
configuration's path, max size, max backups, max age and compress flag. -/
theorem C6_outputTo_sink_selection (cfg : PreSetConfig) :
    (cfg.LogOutputTo = LogOutputStdout → outputTo cfg = [Sink.stdout])
    ∧ (cfg.LogOutputTo = LogOutputFile →
        outputTo cfg = [Sink.file cfg.LogFilePath cfg.MaxLogSizeMb cfg.MaxBackup
          cfg.MaxAgeDay cfg.IsCompress])
    ∧ (cfg.LogOutputTo = LogOutputStdoutAndFile →
        outputTo cfg = [Sink.stdout, Sink.file cfg.LogFilePath cfg.MaxLogSizeMb
          cfg.MaxBackup cfg.MaxAgeDay cfg.IsCompress]) := by
  refine ⟨fun h => ?_, fun h => ?_, fun h => ?_⟩ <;>
    simp [outputTo, h, LogOutputStdout, LogOutputFile, LogOutputStdoutAndFile]

/-- C6 witness: the default configuration selects both sinks, in order. -/
theorem C6_outputTo_witness :
    (DefaultCfg envExample).LogOutputTo = LogOutputStdoutAndFile
    ∧ outputTo (DefaultCfg envExample)
        = [Sink.stdout, Sink.file (DefaultCfg envExample).LogFilePath
            (DefaultCfg envExample).MaxLogSizeMb (DefaultCfg envExample).MaxBackup
            (DefaultCfg envExample).MaxAgeDay (DefaultCfg envExample).IsCompress] :=
  ⟨rfl, (C6_outputTo_sink_selection (DefaultCfg envExample)).2.2 rfl⟩

/-- C9: every selector value other than 0 and 1 — negative values and values
greater than 2 included — falls into the default arm and yields the same
two-element list as both mode, so the sink list is never empty. -/
theorem C9_outputTo_default_arm (cfg : PreSetConfig) :
    (cfg.LogOutputTo ≠ LogOutputStdout → cfg.LogOutputTo ≠ LogOutputFile →
      outputTo cfg = [Sink.stdout, Sink.file cfg.LogFilePath cfg.MaxLogSizeMb
        cfg.MaxBackup cfg.MaxAgeDay cfg.IsCompress])
    ∧ outputTo cfg ≠ [] := by
  refine ⟨fun h0 h1 => ?_, outputTo_ne_nil cfg⟩
  simp [outputTo, LogOutputStdout, LogOutputFile] at h0 h1 ⊢
  simp [h0, h1]

/-- C9 witness: a negative selector value takes the default arm. -/
theorem C9_outputTo_witness :
    outputTo { emptyCfg with LogOutputTo := -3 }
      = [Sink.stdout, Sink.file "" 0 0 0 false] :=
  (C9_outputTo_default_arm { emptyCfg with LogOutputTo := -3 }).1
    (by decide) (by decide)

/-- C7: each facade function uses a string first argument directly as the
template; a non-string first argument synthesizes the template as its
generic stringification followed by exactly one " %v" placeholder per
remaining argument (zero remaining arguments append nothing), and the
remaining arguments are passed to the formatter unchanged. -/
theorem C7_facade_template_synthesis (s r : String) (args : List GoVal) :
    Debug (.str s) args = ⟨.debugf, s, args⟩
    ∧ Debug (.other r) args
        = ⟨.debugf, sprint (GoVal.other r) ++ stringsRepeat " %v" args.length, args⟩
    ∧ Info (.str s) args = ⟨.infof, s, args⟩
    ∧ Info (.other r) args
        = ⟨.infof, sprint (GoVal.other r) ++ stringsRepeat " %v" args.length, args⟩
    ∧ Warn (.str s) args = ⟨.warnf, s, args⟩
    ∧ Warn (.other r) args
        = ⟨.warnf, sprint (GoVal.other r) ++ stringsRepeat " %v" args.length, args⟩
    ∧ Error (.str s) args = ⟨.errorf, s, args⟩
    ∧ Error (.other r) args
        = ⟨.errorf, sprint (GoVal.other r) ++ stringsRepeat " %v" args.length, args⟩
    ∧ Panic (.str s) args = ⟨.panicf, s, args⟩
    ∧ Panic (.other r) args
        = ⟨.panicf, sprint (GoVal.other r) ++ stringsRepeat " %v" args.length, args⟩
    ∧ stringsRepeat " %v" 0 = ""
    ∧ ∀ n : Nat, stringsRepeat " %v" (n + 1) = stringsRepeat " %v" n ++ " %v" :=
  ⟨rfl, rfl, rfl, rfl, rfl, rfl, rfl, rfl, rfl, rfl, rfl, fun _ => rfl⟩

/-- C8: the Log Core binds the fixed field keys time, level, zapLogger
(logger name), caller, msg (message) and stacktrace, with ISO-8601 time
encoding, lowercase level encoding, short file:line caller encoding, one
record per line, and NewLogger adds the permanent serviceName field. -/
theorem C8_encoder_field_bindings (cfg defaultCfg : PreSetConfig) :
    (NewLogger cfg defaultCfg).core.enc = encoderConfig
    ∧ encoderConfig.TimeKey = "time"
    ∧ encoderConfig.LevelKey = "level"
    ∧ encoderConfig.NameKey = "zapLogger"
    ∧ encoderConfig.CallerKey = "caller"
    ∧ encoderConfig.MessageKey = "msg"
    ∧ encoderConfig.StacktraceKey = "stacktrace"
    ∧ encoderConfig.EncodeTime = TimeEnc.iso8601
    ∧ encoderConfig.EncodeLevel = LevelEnc.lowercase
    ∧ encoderConfig.EncodeCaller = CallerEnc.short
    ∧ encoderConfig.LineEnding = "\n"
    ∧ (NewLogger cfg defaultCfg).permanentFields = [("serviceName", cfg.SvcName)] :=
  ⟨rfl, rfl, rfl, rfl, rfl, rfl, rfl, rfl, rfl, rfl, rfl, rfl⟩

/-- C3: an emission through the constructed core writes the encoded record to
every sink iff the record level is at least the configured level, in the
fixed numeric severity order debug < info < warn < error < fatal; below the
threshold no bytes reach any sink. -/
theorem C3_emission_iff_level_enabled (cfg defaultCfg : PreSetConfig)
    (r : Level) (msg : String) :
    (coreWrite (newCore cfg defaultCfg) r msg
        = (newCore cfg defaultCfg).sinks.map (fun s => (s, msg))
      ↔ (getLoggerLevel defaultCfg.LogLevel).toInt ≤ r.toInt)
    ∧ (r.toInt < (getLoggerLevel defaultCfg.LogLevel).toInt
        → coreWrite (newCore cfg defaultCfg) r msg = [])
    ∧ Level.debug.toInt < Level.info.toInt
    ∧ Level.info.toInt < Level.warn.toInt
    ∧ Level.warn.toInt < Level.error.toInt
    ∧ Level.error.toInt < Level.fatal.toInt := by
  refine ⟨?_, ?_, by decide, by decide, by decide, by decide⟩
  · by_cases hle : (getLoggerLevel defaultCfg.LogLevel).toInt ≤ r.toInt
    · simp [coreWrite, levelEnabled, newCore, hle]
    · simp only [coreWrite, levelEnabled, newCore, decide_eq_true_eq,
        if_neg hle, iff_false_intro hle, iff_false]
      intro h
      exact outputTo_ne_nil cfg (List.map_eq_nil_iff.mp h.symm)
  · intro hlt
    simp [coreWrite, levelEnabled, newCore, not_le.mpr hlt]

/-- C3 witness: with the default level info, a debug record writes nothing
and an error record writes to every sink. -/
theorem C3_emission_witness :
    coreWrite (newCore (DefaultCfg envExample) (DefaultCfg envExample))
        Level.debug "m" = []
    ∧ coreWrite (newCore (DefaultCfg envExample) (DefaultCfg envExample))
        Level.error "m"
      = (newCore (DefaultCfg envExample) (DefaultCfg envExample)).sinks.map
          (fun s => (s, "m")) :=
  ⟨(C3_emission_iff_level_enabled (DefaultCfg envExample) (DefaultCfg envExample)
      Level.debug "m").2.1 (by decide),
   (C3_emission_iff_level_enabled (DefaultCfg envExample) (DefaultCfg envExample)
      Level.error "m").1.mpr (by decide)⟩

/-- C4: a mutation carrying an unrecognized level name gets a 4xx response
and leaves the threshold state unchanged; a recognized name atomically
replaces the threshold and gets a 2xx response. -/
theorem C4_control_endpoint_validation (s : SysState) (name : String) :
    (levelMapLookup name = none →
      (serveHTTP s .put name).1.status / 100 = 4
      ∧ (serveHTTP s .put name).2 = s)
    ∧ (∀ l, levelMapLookup name = some l →
      (serveHTTP s .put name).1.status / 100 = 2
      ∧ (serveHTTP s .put name).2 = { s with atomicLevel := l }) := by
  constructor
  · intro h
    simp [serveHTTP, h]
  · intro l h
    simp [serveHTTP, h]

/-- C4 witness: on the freshly initialized state, an unrecognized name is
rejected with the state kept, and a recognized name replaces the level. -/
theorem C4_control_endpoint_witness :
    ((serveHTTP (InitPrettyZap none envExample) .put "nonsense").1.status / 100 = 4
      ∧ (serveHTTP (InitPrettyZap none envExample) .put "nonsense").2
          = InitPrettyZap none envExample)
    ∧ ((serveHTTP (InitPrettyZap none envExample) .put "warn").1.status / 100 = 2
      ∧ (serveHTTP (InitPrettyZap none envExample) .put "warn").2
          = { InitPrettyZap none envExample with atomicLevel := Level.warn }) :=
  ⟨(C4_control_endpoint_validation (InitPrettyZap none envExample) "nonsense").1
      (by decide),
   (C4_control_endpoint_validation (InitPrettyZap none envExample) "warn").2
      Level.warn (by decide)⟩

/-- C1 (code evaluation at the failing input): after initialization with the
defaults (level info) and a control-endpoint mutation to debug, the
atomicLevel cell holds debug — under which a debug record is enabled — yet
the core's level is still the construction-time info, so the very next
debug emission writes nothing: the core never reads the atomicLevel cell. -/
theorem C1_level_change_not_observed_by_core :
    (serveHTTP (InitPrettyZap none envExample) .put "debug").2.atomicLevel
        = Level.debug
    ∧ levelEnabled
        (serveHTTP (InitPrettyZap none envExample) .put "debug").2.atomicLevel
        Level.debug = true
    ∧ (serveHTTP (InitPrettyZap none envExample) .put "debug").2.core.level
        = Level.info
    ∧ coreWrite (serveHTTP (InitPrettyZap none envExample) .put "debug").2.core
        Level.debug "after level change" = [] :=
  ⟨rfl, rfl, rfl, rfl⟩

end prettyZap
